import Mathlib

/-!
Verification of the Arcanoid brick-breaking game sources.

The repository contains three variants of the game:
* `game_engine.py` (the richer engine: `GameEngine`, `Ball` with `_clamp_speed`,
  axis-of-least-penetration brick resolution),
* `game.py` (a self-contained variant), and
* `sprites/ball.py`, `sprites/brick.py`, `sprites/paddle.py` with `config.py`.

Pixel rectangles (`pygame.Rect`) hold integers, so rectangles are modelled with `ℤ`
fields.  Float positions and velocities of the richer engine are modelled over `ℝ`
(the engine normalises velocities with `sqrt` and uses `sin`/`cos`, so its velocity
values are not rational in general); the sprite variant's wall handling is pure
rational arithmetic and is modelled over `ℚ`.  Assigning a float to a `pygame.Rect`
coordinate truncates toward zero, modelled by `pyInt` / `pyIntQ`.
-/

namespace Arcanoid

/-- A `pygame.Rect`: integer position and size. -/
structure Rect where
  x : ℤ
  y : ℤ
  w : ℤ
  h : ℤ
  deriving DecidableEq

namespace Rect

/-- `rect.left`. -/
def left (r : Rect) : ℤ := r.x

/-- `rect.right`. -/
def right (r : Rect) : ℤ := r.x + r.w

/-- `rect.top`. -/
def top (r : Rect) : ℤ := r.y

/-- `rect.bottom`. -/
def bottom (r : Rect) : ℤ := r.y + r.h

/-- `rect.centerx` (pygame computes `x + w // 2` with floor division). -/
def centerx (r : Rect) : ℤ := r.x + Int.fdiv r.w 2

/-- Assignment `rect.left = v`. -/
def setLeft (r : Rect) (v : ℤ) : Rect := { r with x := v }

/-- Assignment `rect.right = v` (pygame sets `x = v - w`). -/
def setRight (r : Rect) (v : ℤ) : Rect := { r with x := v - r.w }

/-- Assignment `rect.top = v`. -/
def setTop (r : Rect) (v : ℤ) : Rect := { r with y := v }

/-- Assignment `rect.bottom = v` (pygame sets `y = v - h`). -/
def setBottom (r : Rect) (v : ℤ) : Rect := { r with y := v - r.h }

/-- Assignment `rect.centerx = v` (pygame sets `x = v - w // 2`). -/
def setCenterx (r : Rect) (v : ℤ) : Rect := { r with x := v - Int.fdiv r.w 2 }

/-- `a.colliderect(b)`: the rectangles overlap with positive area on both axes. -/
def collide (a b : Rect) : Prop :=
  a.x < b.x + b.w ∧ a.y < b.y + b.h ∧ a.x + a.w > b.x ∧ a.y + a.h > b.y

instance (a b : Rect) : Decidable (collide a b) := by
  unfold collide; infer_instance

end Rect

/-- Python `int()` conversion of a float (truncation toward zero), as assigned to a
`pygame.Rect` coordinate, on the ideal reals. -/
noncomputable def pyInt (x : ℝ) : ℤ := if x < 0 then ⌈x⌉ else ⌊x⌋

/-- Truncation toward zero on the rationals (same conversion, for the parts of the
code whose arithmetic stays rational). -/
def pyIntQ (x : ℚ) : ℤ := if x < 0 then ⌈x⌉ else ⌊x⌋

/-- Squared magnitude of a velocity vector, `vx*vx + vy*vy`. -/
def mag2 (v : ℝ × ℝ) : ℝ := v.1 ^ 2 + v.2 ^ 2

namespace Engine

/-- `Ball._clamp_speed` of `game_engine.py`: if the velocity length is zero, replace
it by `Vector2(0.6, -1).normalize() * speed`, else normalise the velocity and scale
it to `speed`. -/
noncomputable def clampSpeed (speed : ℝ) (v : ℝ × ℝ) : ℝ × ℝ :=
  if Real.sqrt (mag2 v) = 0 then
    ((0.6 / Real.sqrt ((0.6 : ℝ) ^ 2 + 1 ^ 2)) * speed,
     (-1 / Real.sqrt ((0.6 : ℝ) ^ 2 + 1 ^ 2)) * speed)
  else
    (v.1 / Real.sqrt (mag2 v) * speed, v.2 / Real.sqrt (mag2 v) * speed)

/-- `Ball.bounce_horizontal` velocity effect: negate `x`, then `_clamp_speed`. -/
noncomputable def bounceHorizontalVel (speed : ℝ) (v : ℝ × ℝ) : ℝ × ℝ :=
  clampSpeed speed (-v.1, v.2)

/-- `Ball.bounce_vertical` velocity effect: negate `y`, then `_clamp_speed`. -/
noncomputable def bounceVerticalVel (speed : ℝ) (v : ℝ × ℝ) : ℝ × ℝ :=
  clampSpeed speed (v.1, -v.2)

/-- `GameEngine._bounce_from_paddle` velocity effect, as a function of the raw
center offset quotient: clamp the offset to `[-1, 1]`, map it to an angle of up to
45 degrees, set the velocity to `(speed*sin, -|speed*cos|)` and `_clamp_speed`. -/
noncomputable def paddleBounceVel (speed : ℝ) (offset : ℝ) : ℝ × ℝ :=
  let off := max (-1 : ℝ) (min 1 offset)
  let rad := off * 45 * Real.pi / 180
  clampSpeed speed (speed * Real.sin rad, -|speed * Real.cos rad|)

/-- Ball state of `game_engine.py`: pixel rect (of size `2*radius` squared), float
position (kept in sync with the rect top-left), velocity, configured speed, and
the `_launched` flag. -/
structure BallS where
  rect : Rect
  pos : ℝ × ℝ
  vel : ℝ × ℝ
  speed : ℝ
  launched : Bool

/-- Paddle state of `game_engine.py` (its bounds rect has the window width). -/
structure PaddleS where
  rect : Rect
  pos : ℝ × ℝ
  vel : ℝ × ℝ
  speed : ℝ

/-- `MovingObject.move`: integrate the float position by `velocity * dt` and write
it, truncated, to the rect top-left. -/
noncomputable def moveRect (r : Rect) (pos vel : ℝ × ℝ) (dt : ℝ) : Rect × (ℝ × ℝ) :=
  let p := (pos.1 + vel.1 * dt, pos.2 + vel.2 * dt)
  ({ r with x := pyInt p.1, y := pyInt p.2 }, p)

/-- `MovingObject.sync_position` for the ball. -/
def BallS.syncPos (b : BallS) : BallS :=
  { b with pos := ((b.rect.x : ℝ), (b.rect.y : ℝ)) }

/-- `MovingObject.sync_position` for the paddle. -/
def PaddleS.syncPos (p : PaddleS) : PaddleS :=
  { p with pos := ((p.rect.x : ℝ), (p.rect.y : ℝ)) }

/-- `Paddle.update` of `game_engine.py`: set `velocity.x = speed * direction`,
move, clamp the rect's left edge to `0` and its right edge to the bounds width
`W`, then sync the float position. -/
noncomputable def PaddleS.update (W : ℤ) (p : PaddleS) (dt : ℝ) (direction : ℤ) : PaddleS :=
  let p1 : PaddleS := { p with vel := (p.speed * (direction : ℝ), p.vel.2) }
  let m := moveRect p1.rect p1.pos p1.vel dt
  let p2 : PaddleS := { p1 with rect := m.1, pos := m.2 }
  let p3 : PaddleS := if p2.rect.left < 0 then { p2 with rect := p2.rect.setLeft 0 } else p2
  let p4 : PaddleS := if p3.rect.right > W then { p3 with rect := p3.rect.setRight W } else p3
  p4.syncPos

/-- `Ball.stick_to_paddle`: center on the paddle, bottom 4 pixels above its top. -/
def BallS.stickToPaddle (b : BallS) (pr : Rect) : BallS :=
  BallS.syncPos { b with rect := (b.rect.setCenterx pr.centerx).setBottom (pr.top - 4) }

/-- `Ball.reset`: stick to the paddle, clear the launched flag, zero velocity. -/
def BallS.reset (b : BallS) (pr : Rect) : BallS :=
  let b1 := b.stickToPaddle pr
  { b1 with launched := false, vel := (0, 0) }

/-- `Ball.update` of `game_engine.py`: move only when launched. -/
noncomputable def BallS.update (b : BallS) (dt : ℝ) : BallS :=
  if b.launched = false then b
  else
    let m := moveRect b.rect b.pos b.vel dt
    { b with rect := m.1, pos := m.2 }

/-- `Ball.bounce_horizontal` on the ball state. -/
noncomputable def BallS.bounceHorizontal (b : BallS) : BallS :=
  { b with vel := bounceHorizontalVel b.speed b.vel }

/-- `Ball.bounce_vertical` on the ball state. -/
noncomputable def BallS.bounceVertical (b : BallS) : BallS :=
  { b with vel := bounceVerticalVel b.speed b.vel }

/-- A brick of `game_engine.py`: rect, remaining strength, score value. -/
structure BrickS where
  rect : Rect
  strength : ℤ
  points : ℤ
  deriving DecidableEq

/-- Axis-of-least-penetration repositioning of `GameEngine._handle_brick_collisions`:
compute the four overlaps, reposition the ball rect just outside the side of
minimum overlap, and report whether the bounce is horizontal. -/
def resolveRect (ballRect brickRect : Rect) : Rect × Bool :=
  let oL := ballRect.right - brickRect.left
  let oR := brickRect.right - ballRect.left
  let oT := ballRect.bottom - brickRect.top
  let oB := brickRect.bottom - ballRect.top
  let m := min (min oL oR) (min oT oB)
  if m = oL ∨ m = oR then
    (if m = oL then ballRect.setRight (brickRect.left - 1)
     else ballRect.setLeft (brickRect.right + 1), true)
  else
    (if m = oT then ballRect.setBottom (brickRect.top - 1)
     else ballRect.setTop (brickRect.bottom + 1), false)

/-- Ball effect of one brick collision: reposition per `resolveRect`, bounce the
matching velocity axis, and `sync_position`. -/
noncomputable def resolveBall (b : BallS) (brickRect : Rect) : BallS :=
  let rr := resolveRect b.rect brickRect
  let b1 : BallS := { b with rect := rr.1 }
  BallS.syncPos (if rr.2 then b1.bounceHorizontal else b1.bounceVertical)

/-- `GameEngine._handle_brick_collisions`: scan the live bricks in order; on the
first brick whose rect the ball rect intersects, resolve the ball's position and
velocity, apply `hit()` (destroyed exactly when the decremented strength is
`≤ 0`), on destruction remove the brick and add its points to the score, and stop
scanning further bricks this frame. -/
noncomputable def handleBrickCollisions (ball : BallS) (bricks : List BrickS) (score : ℤ) :
    BallS × List BrickS × ℤ :=
  match bricks with
  | [] => (ball, [], score)
  | b :: rest =>
    if Rect.collide ball.rect b.rect then
      let ball1 := resolveBall ball b.rect
      if b.strength - 1 ≤ 0 then (ball1, rest, score + b.points)
      else (ball1, { b with strength := b.strength - 1 } :: rest, score)
    else
      let r := handleBrickCollisions ball rest score
      (r.1, b :: r.2.1, r.2.2)

/-- The engine's `GameState`. -/
inductive GState where
  | MENU : GState
  | PLAYING : GState
  | GAME_OVER : GState
  deriving DecidableEq

/-- The mutable session state of `GameEngine` touched by `_update_gameplay`. -/
structure EState where
  paddle : PaddleS
  ball : BallS
  bricks : List BrickS
  score : ℤ
  lives : ℤ
  gstate : GState
  victory : Bool

/-- The window geometry of the engine configuration. -/
structure EConfig where
  window_width : ℤ
  window_height : ℤ

/-- `GameEngine._lose_life`: decrement lives; at `0` or below go to `GAME_OVER`
(and return), else reset the ball onto the paddle. -/
def loseLife (s : EState) : EState :=
  let lives := s.lives - 1
  if lives ≤ 0 then { s with lives := lives, gstate := GState.GAME_OVER }
  else { s with lives := lives, ball := s.ball.reset s.paddle.rect }

/-- `GameEngine._bounce_from_paddle`: offset-driven 45-degree bounce, clamped
speed, and the ball's bottom placed one pixel above the paddle's top. -/
noncomputable def bounceFromPaddle (s : EState) : EState :=
  let off : ℝ :=
    ((s.ball.rect.centerx - s.paddle.rect.centerx : ℤ) : ℝ) / ((s.paddle.rect.w : ℝ) / 2)
  let ball := BallS.syncPos { s.ball with
    vel := paddleBounceVel s.ball.speed off,
    rect := s.ball.rect.setBottom (s.paddle.rect.top - 1) }
  { s with ball := ball }

/-- The wall phase of `GameEngine._update_gameplay`: clamp to the left or right
wall with a horizontal bounce, then to the top wall with a vertical bounce. -/
noncomputable def wallPhase (W : ℤ) (b : BallS) : BallS :=
  let b1 :=
    if b.rect.left ≤ 0 ∨ b.rect.right ≥ W then
      BallS.bounceHorizontal (BallS.syncPos
        (if b.rect.left ≤ 0 then { b with rect := b.rect.setLeft 0 }
         else { b with rect := b.rect.setRight W }))
    else b
  if b1.rect.top ≤ 0 then
    BallS.bounceVertical (BallS.syncPos { b1 with rect := b1.rect.setTop 0 })
  else b1

/-- The motion phase of `GameEngine._update_gameplay` before the floor check:
paddle update, stick-to-paddle when not launched, ball integration, wall
resolution. -/
noncomputable def preMove (cfg : EConfig) (dt : ℝ) (direction : ℤ) (s : EState) : EState :=
  let paddle := PaddleS.update cfg.window_width s.paddle dt direction
  let ball0 := if s.ball.launched = false then s.ball.stickToPaddle paddle.rect else s.ball
  let ball2 := wallPhase cfg.window_width (ball0.update dt)
  { s with paddle := paddle, ball := ball2 }

/-- `GameEngine._update_gameplay` after input polling: the motion phase; on floor
contact (`ball.rect.bottom >= window_height`) lose a life and return immediately;
otherwise bounce from the paddle when intersecting with downward velocity, run
the brick collision phase, and finally check victory. -/
noncomputable def updateGameplay (cfg : EConfig) (dt : ℝ) (direction : ℤ) (s : EState) : EState :=
  let s1 := preMove cfg dt direction s
  if s1.ball.rect.bottom ≥ cfg.window_height then loseLife s1
  else
    let s2 :=
      if Rect.collide s1.ball.rect s1.paddle.rect ∧ s1.ball.vel.2 > 0 then bounceFromPaddle s1
      else s1
    let r := handleBrickCollisions s2.ball s2.bricks s2.score
    let s3 : EState := { s2 with ball := r.1, bricks := r.2.1, score := r.2.2 }
    if s3.bricks.isEmpty then { s3 with victory := true, gstate := GState.GAME_OVER } else s3

/-- The shipped 960 × 640 window, used by the concrete example states. -/
def exCfg : EConfig := ⟨960, 640⟩

/-- A concrete life-loss frame: the ball is stuck and the paddle (hence the stuck
ball) sits below the floor line of `exCfg`. -/
noncomputable def exState : EState where
  paddle := { rect := ⟨420, 700, 120, 16⟩, pos := (((420 : ℤ) : ℝ), ((700 : ℤ) : ℝ)),
              vel := (0, 0), speed := 420 }
  ball := { rect := ⟨0, 0, 20, 20⟩, pos := (0, 0), vel := (0, 0), speed := 520,
            launched := false }
  bricks := [⟨⟨8, 80, 87, 22⟩, 2, 100⟩]
  score := 7
  lives := 1
  gstate := GState.PLAYING
  victory := false

/-- The same life-loss frame with two lives remaining. -/
noncomputable def exState2 : EState := { exState with lives := 2 }

end Engine

namespace Sprites

/-- `Ball.bounce_off_paddle` of `sprites/ball.py` (identical in `game.py`), velocity
effect as a function of the raw center offset quotient: clamp the offset to
`[-1, 1]`, map it to an angle of up to 70 degrees (`max_bounce_angle`), and set the
velocity to `(s*sin, -s*cos)` where `s` is the current speed `hypot(velocity)`, or
`self.speed` when that is zero (Python `or`). -/
noncomputable def bounceOffPaddleVel (ballSpeed : ℝ) (offset : ℝ) (v : ℝ × ℝ) : ℝ × ℝ :=
  let off := max (-1 : ℝ) (min 1 offset)
  let ang := off * (70 * Real.pi / 180)
  let s := if Real.sqrt (mag2 v) = 0 then ballSpeed else Real.sqrt (mag2 v)
  (s * Real.sin ang, -(s * Real.cos ang))

end Sprites

/-- One bounce of a launched ball, covering every bounce operation of the three
variants: wall reflection by pure negation (`sprites/ball.py`, `game.py`), the
`game.py` brick bounce (negate `y`), the engine's clamped wall and brick bounces
(`bounce_horizontal` / `bounce_vertical`), and the two paddle bounces. -/
inductive BounceEvent where
  | wallNegX : BounceEvent
  | wallNegY : BounceEvent
  | brickNegY : BounceEvent
  | engineH : BounceEvent
  | engineV : BounceEvent
  | enginePaddle (offset : ℝ) : BounceEvent
  | spritePaddle (offset : ℝ) : BounceEvent

/-- Apply one bounce event to a velocity, for configured ball speed `s`. -/
noncomputable def applyBounce (s : ℝ) (e : BounceEvent) (v : ℝ × ℝ) : ℝ × ℝ :=
  match e with
  | .wallNegX => (-v.1, v.2)
  | .wallNegY => (v.1, -v.2)
  | .brickNegY => (v.1, -v.2)
  | .engineH => Engine.bounceHorizontalVel s v
  | .engineV => Engine.bounceVerticalVel s v
  | .enginePaddle off => Engine.paddleBounceVel s off
  | .spritePaddle off => Sprites.bounceOffPaddleVel s off v

/-- Apply a sequence of bounce events in order. -/
noncomputable def applyBounces (s : ℝ) (es : List BounceEvent) (v : ℝ × ℝ) : ℝ × ℝ :=
  es.foldl (fun w e => applyBounce s e w) v

namespace Sprites

/-- The ball of `sprites/ball.py`: a pixel rectangle (of size `2*radius` squared),
a velocity (floats; rational in the wall-handling arithmetic modelled here), and
the `_launched` flag. -/
structure Ball where
  rect : Rect
  vel : ℚ × ℚ
  launched : Bool

/-- `Ball.update` of `sprites/ball.py`: while stuck, re-snap to the paddle; while
launched, integrate `rect.x += vx*dt`, `rect.y += vy*dt` (truncating on rect
assignment), then clamp-and-reflect on the left or right wall (`elif`), then on
the top wall. -/
def Ball.update (W : ℤ) (paddleRect : Rect) (dt : ℚ) (b : Ball) : Ball :=
  if b.launched = false then
    { b with rect := (b.rect.setCenterx paddleRect.centerx).setBottom (paddleRect.top - 4) }
  else
    let x1 := pyIntQ ((b.rect.x : ℚ) + b.vel.1 * dt)
    let y1 := pyIntQ ((b.rect.y : ℚ) + b.vel.2 * dt)
    let px : ℤ × ℚ :=
      if x1 ≤ 0 then (0, -b.vel.1)
      else if x1 + b.rect.w ≥ W then (W - b.rect.w, -b.vel.1)
      else (x1, b.vel.1)
    let py : ℤ × ℚ :=
      if y1 ≤ 0 then (0, -b.vel.2) else (y1, b.vel.2)
    { b with rect := { b.rect with x := px.1, y := py.1 }, vel := (px.2, py.2) }

end Sprites

namespace LevelGen

/-- A brick descriptor of the level-layout schema
`{x, y, width, height, strength, color}`. -/
structure BrickDesc where
  x : ℤ
  y : ℤ
  width : ℤ
  height : ℤ
  strength : ℤ
  color : ℤ × ℤ × ℤ
  deriving DecidableEq

/-- The configuration fields read by `generate_level_layout` of `main.py`, with
the selected difficulty's `brick_strength`. -/
structure GenConfig where
  window_width : ℤ
  brick_padding : ℤ
  brick_cols : ℤ
  brick_rows : ℤ
  brick_top_offset : ℤ
  brick_height : ℤ
  brick_colors : List (ℤ × ℤ × ℤ)
  brick_strength : ℤ

/-- `generate_level_layout` of `main.py`: clamp the density into `[0, 1]`; for
each cell of the rows × cols grid in row-major order, draw `random.random()`
(modelled by the stream `rng` of unit-interval samples, one per visited cell) and
skip the cell when the draw exceeds the density; otherwise emit a descriptor
whose strength is `max(1, brick_strength + (brick_rows - row - 1))` and whose
color is `brick_colors[row % len(brick_colors)]` (the color list is non-empty in
any run that gets here; the `getD` default is unreachable then). -/
def generate_level_layout (cfg : GenConfig) (density : ℚ) (rng : ℕ → ℚ) :
    List BrickDesc :=
  let density := max 0 (min 1 density)
  let available_width := cfg.window_width - cfg.brick_padding * 2
  let brick_width :=
    Int.fdiv (available_width - (cfg.brick_cols - 1) * cfg.brick_padding) cfg.brick_cols
  (List.range cfg.brick_rows.toNat).flatMap (fun row =>
    (List.range cfg.brick_cols.toNat).filterMap (fun col =>
      if rng (row * cfg.brick_cols.toNat + col) > density then none
      else some {
        x := cfg.brick_padding + (col : ℤ) * (brick_width + cfg.brick_padding),
        y := cfg.brick_top_offset + (row : ℤ) * (cfg.brick_height + cfg.brick_padding),
        width := brick_width,
        height := cfg.brick_height,
        strength := max 1 (cfg.brick_strength + (cfg.brick_rows - (row : ℤ) - 1)),
        color := cfg.brick_colors.getD (row % cfg.brick_colors.length) (0, 0, 0) }))

/-- The configuration of the claimed example: a 6 × 10 grid with the shipped
960-pixel window geometry and the default difficulty `brick_strength` of 1. -/
def exGenCfg : GenConfig := ⟨960, 8, 10, 6, 80, 22, [(243, 86, 112)], 1⟩

end LevelGen

namespace LevelLoad

/-- An abstraction of the JSON values appearing in a brick entry, by how the
conversions of `load_level_layout` treat them: a scalar `int()` converts, a
scalar on which `int()` raises, or a sequence (`int()` raises, `tuple()`
succeeds). -/
inductive PyValue where
  | intLike (n : ℤ) : PyValue
  | badScalar : PyValue
  | seq (xs : List ℤ) : PyValue
  deriving DecidableEq

/-- One entry of the `bricks` list: a JSON object, a partial map from field names
to values. -/
structure RawEntry where
  fields : List (String × PyValue)
  deriving DecidableEq

/-- `item.get(key)`. -/
def RawEntry.get? (e : RawEntry) (k : String) : Option PyValue :=
  (e.fields.find? (fun p => p.1 == k)).map (·.2)

/-- `int(item[key])`: `KeyError` when the field is missing, `TypeError` or
`ValueError` when the value is not int-convertible; `load_level_layout` catches
all three and raises its enumerated `ValueError` for the entry. -/
def getInt (e : RawEntry) (k : String) : Except String ℤ :=
  match e.get? k with
  | some (.intLike n) => .ok n
  | _ => .error "Invalid brick entry"

/-- `tuple(item.get("color", (255, 255, 255)))`: the default when absent; a
`TypeError` (caught and re-raised likewise) when present but not iterable. -/
def getColor (e : RawEntry) : Except String (List ℤ) :=
  match e.get? "color" with
  | none => .ok [255, 255, 255]
  | some (.seq xs) => .ok xs
  | some _ => .error "Invalid brick entry"

/-- The validated descriptor produced for one entry. -/
structure LoadedBrick where
  x : ℤ
  y : ℤ
  width : ℤ
  height : ℤ
  strength : ℤ
  color : List ℤ
  deriving DecidableEq

/-- Validation of one entry of the `bricks` list in `load_level_layout`: all five
required numeric fields must convert and the optional color must be a tuple. -/
def parseBrick (e : RawEntry) : Except String LoadedBrick := do
  let x ← getInt e "x"
  let y ← getInt e "y"
  let width ← getInt e "width"
  let height ← getInt e "height"
  let strength ← getInt e "strength"
  let color ← getColor e
  return ⟨x, y, width, height, strength, color⟩

/-- `load_level_layout` of `main.py` over the parsed `bricks` list: validate the
entries in order and abort with the validation error of the first invalid entry
(the locally accumulated list is discarded by the raise, so no partial list
escapes); when all entries are valid, return their descriptors in order. -/
def load_level_layout (entries : List RawEntry) : Except String (List LoadedBrick) :=
  match entries with
  | [] => .ok []
  | e :: rest =>
    match parseBrick e with
    | .error msg => .error msg
    | .ok d =>
      match load_level_layout rest with
      | .error msg => .error msg
      | .ok ds => .ok (d :: ds)

/-- A valid example entry. -/
def exGood : RawEntry :=
  ⟨[("x", .intLike 8), ("y", .intLike 80), ("width", .intLike 87),
    ("height", .intLike 22), ("strength", .intLike 2)]⟩

/-- An invalid example entry: `x` present but not int-convertible, `y` missing. -/
def exBad : RawEntry := ⟨[("x", .badScalar)]⟩

end LevelLoad

namespace Brick

/-- `Brick.hit` of `game_engine.py` (and `sprites/brick.py`, `game.py`): decrement
`strength` by one and report destroyed exactly when the new strength is `≤ 0`.
Returns the new stored strength and the reported signal (`true` = destroyed). -/
def hit (strength : ℤ) : ℤ × Bool :=
  (strength - 1, decide (strength - 1 ≤ 0))

/-- Stored strength and last reported signal after `k` calls to `hit`, starting
from stored strength `s` (the signal component is meaningful for `k ≥ 1`). -/
def hitIter (s : ℤ) : ℕ → ℤ × Bool
  | 0 => (s, false)
  | k + 1 => hit (hitIter s k).1

/-- The per-strength brick color table `BRICK_COLORS` of `game.py` (the same three
tiers the sprite variant's configuration provides). -/
def BRICK_COLORS : List (ℤ × (ℤ × ℤ × ℤ)) :=
  [(1, (243, 86, 112)), (2, (255, 191, 71)), (3, (117, 214, 164))]

/-- Dictionary lookup `BRICK_COLORS[level]`. -/
def lookupColor (level : ℤ) : Option (ℤ × ℤ × ℤ) :=
  (BRICK_COLORS.find? (fun p => p.1 = level)).map (·.2)

/-- The tier used by `Brick.update_color` of `sprites/brick.py`:
`level = max(1, min(3, self.strength))`. -/
def updateColorLevel (strength : ℤ) : ℤ := max 1 (min 3 strength)

end Brick

end Arcanoid

namespace Arcanoid

/-- Helper: `pyInt` is the identity on integers. -/
theorem pyInt_intCast (n : ℤ) : pyInt (n : ℝ) = n := by
  unfold pyInt
  split
  · exact Int.ceil_intCast n
  · exact Int.floor_intCast n

/-- Helper: `pyIntQ` is the identity on integers. -/
theorem pyIntQ_intCast (n : ℤ) : pyIntQ (n : ℚ) = n := by
  unfold pyIntQ
  split
  · exact Int.ceil_intCast n
  · exact Int.floor_intCast n

/-- Helper: strength stored after `k` hits is the initial strength minus `k`. -/
theorem Brick.hitIter_fst (s : ℤ) (k : ℕ) : (Brick.hitIter s k).1 = s - k := by
  induction k with
  | zero => simp [Brick.hitIter]
  | succ n ih =>
      simp only [Brick.hitIter, Brick.hit, ih]
      push_cast
      ring

/-- C4: a brick created with strength `N ≥ 1` reports destroyed exactly on the
`N`-th call to `hit()` — for every `k` with `1 ≤ k ≤ N`, the `k`-th call reports
destroyed iff `k = N` (so the first `N-1` calls report damaged) — and the stored
strength after each of those calls is never negative. -/
theorem brick_hit_exactly_N (N : ℤ) (k : ℕ) (hN : 1 ≤ N) (hk1 : 1 ≤ k)
    (hkN : (k : ℤ) ≤ N) :
    ((Brick.hitIter N k).2 = true ↔ (k : ℤ) = N) ∧ 0 ≤ (Brick.hitIter N k).1 := by
  obtain ⟨j, rfl⟩ : ∃ j, k = j + 1 := ⟨k - 1, by omega⟩
  constructor
  · show (Brick.hit (Brick.hitIter N j).1).2 = true ↔ _
    rw [Brick.hitIter_fst]
    simp only [Brick.hit, decide_eq_true_eq]
    push_cast
    omega
  · rw [Brick.hitIter_fst]
    push_cast
    omega

/-- Witness for C4 at `N = 3`: the first two hits report damaged, the third
reports destroyed, and all stored strengths stay non-negative. -/
theorem brick_hit_exactly_N_witness :
    (((Brick.hitIter 3 1).2 = true ↔ ((1 : ℕ) : ℤ) = 3) ∧ 0 ≤ (Brick.hitIter 3 1).1) ∧
    (((Brick.hitIter 3 3).2 = true ↔ ((3 : ℕ) : ℤ) = 3) ∧ 0 ≤ (Brick.hitIter 3 3).1) :=
  ⟨brick_hit_exactly_N 3 1 (by decide) (by decide) (by decide),
   brick_hit_exactly_N 3 3 (by decide) (by decide) (by decide)⟩

/-- C9: recomputing a brick's display color never fails — for every stored
strength, the tier `max(1, min(3, strength))` used by `update_color` has an entry
in the color map (the lookup returns a value, so no error can propagate), and that
tier is the nearest valid tier of the map to the strength. -/
theorem update_color_never_fails (s : ℤ) :
    (Brick.lookupColor (Brick.updateColorLevel s)).isSome = true ∧
    ∀ k ∈ Brick.BRICK_COLORS.map Prod.fst,
      (Brick.updateColorLevel s - s).natAbs ≤ (k - s).natAbs := by
  constructor
  · have h : Brick.updateColorLevel s = 1 ∨ Brick.updateColorLevel s = 2 ∨
        Brick.updateColorLevel s = 3 := by
      unfold Brick.updateColorLevel
      omega
    rcases h with h | h | h <;> rw [h] <;> decide
  · intro k hk
    have hk3 : k = 1 ∨ k = 2 ∨ k = 3 := by
      simpa [Brick.BRICK_COLORS] using hk
    unfold Brick.updateColorLevel
    rcases hk3 with rfl | rfl | rfl <;> omega

/-- Witness for C9 at strength `7`: the clamped tier is `3`, its color exists, and
`3` is at least as near to `7` as tier `1` is. -/
theorem update_color_never_fails_witness :
    (Brick.lookupColor (Brick.updateColorLevel 7)).isSome = true ∧
    (Brick.updateColorLevel 7 - 7).natAbs ≤ ((1 : ℤ) - 7).natAbs :=
  ⟨(update_color_never_fails 7).1,
   (update_color_never_fails 7).2 1 (by decide)⟩

/-- Helper: the squared magnitude is non-negative. -/
theorem mag2_nonneg (v : ℝ × ℝ) : 0 ≤ mag2 v :=
  add_nonneg (sq_nonneg _) (sq_nonneg _)

/-- Helper: `_clamp_speed` always yields a velocity of squared magnitude
`speed ^ 2`. -/
theorem mag2_clampSpeed (s : ℝ) (v : ℝ × ℝ) :
    mag2 (Engine.clampSpeed s v) = s ^ 2 := by
  unfold Engine.clampSpeed
  split
  · have hpos : (0 : ℝ) < (0.6 : ℝ) ^ 2 + 1 ^ 2 := by norm_num
    have hsq : Real.sqrt ((0.6 : ℝ) ^ 2 + 1 ^ 2) ^ 2 = (0.6 : ℝ) ^ 2 + 1 ^ 2 :=
      Real.sq_sqrt hpos.le
    have hne : Real.sqrt ((0.6 : ℝ) ^ 2 + 1 ^ 2) ≠ 0 :=
      (Real.sqrt_pos.mpr hpos).ne'
    simp only [mag2]
    field_simp
    nlinarith [hsq]
  · rename_i h
    have hm : 0 ≤ mag2 v := mag2_nonneg v
    have hmpos : 0 < mag2 v := by
      rcases lt_or_eq_of_le hm with h1 | h1
      · exact h1
      · exact absurd (by rw [← h1, Real.sqrt_zero]) h
    have hsq : Real.sqrt (mag2 v) ^ 2 = mag2 v := Real.sq_sqrt hm
    have hne : Real.sqrt (mag2 v) ≠ 0 := h
    simp only [mag2] at *
    field_simp
    nlinarith [hsq]

/-- Helper: one bounce event preserves squared magnitude `s ^ 2` (the clamped
engine bounces re-establish it outright). -/
theorem mag2_applyBounce (s : ℝ) (hs : 0 < s) (e : BounceEvent) (v : ℝ × ℝ)
    (hv : mag2 v = s ^ 2) : mag2 (applyBounce s e v) = s ^ 2 := by
  cases e with
  | wallNegX => simp only [applyBounce, mag2] at *; nlinarith [hv]
  | wallNegY => simp only [applyBounce, mag2] at *; nlinarith [hv]
  | brickNegY => simp only [applyBounce, mag2] at *; nlinarith [hv]
  | engineH => exact mag2_clampSpeed s _
  | engineV => exact mag2_clampSpeed s _
  | enginePaddle off => exact mag2_clampSpeed s _
  | spritePaddle off =>
      have hsqrt : Real.sqrt (v.1 ^ 2 + v.2 ^ 2) = s := by
        rw [show v.1 ^ 2 + v.2 ^ 2 = mag2 v from rfl, hv]
        exact Real.sqrt_sq hs.le
      simp only [applyBounce, Sprites.bounceOffPaddleVel, mag2, hsqrt, if_neg hs.ne']
      have h2 := Real.sin_sq_add_cos_sq (max (-1 : ℝ) (min 1 off) * (70 * Real.pi / 180))
      nlinarith [h2]

/-- C1: for every launched ball with nonzero velocity (squared speed `s ^ 2` with
`s > 0`, as every launch establishes), the speed magnitude is invariant across any
sequence of wall bounces, paddle bounces, and brick bounces of any of the
variants: after applying the whole sequence the squared magnitude is still
`s ^ 2`, the configured ball speed squared. -/
theorem ball_speed_invariant (s : ℝ) (v : ℝ × ℝ) (es : List BounceEvent)
    (hs : 0 < s) (hv : mag2 v = s ^ 2) :
    mag2 (applyBounces s es v) = s ^ 2 := by
  induction es generalizing v with
  | nil => simpa [applyBounces] using hv
  | cons e rest ih =>
      rw [applyBounces, List.foldl_cons]
      exact ih (applyBounce s e v) (mag2_applyBounce s hs e v hv)

/-- Witness for C1: speed `5`, velocity `(3, 4)`, after a wall reflection followed
by a `game.py` brick bounce the squared speed is still `25`. -/
theorem ball_speed_invariant_witness :
    (0 : ℝ) < 5 ∧ mag2 ((3 : ℝ), (4 : ℝ)) = 5 ^ 2 ∧
    mag2 (applyBounces 5 [BounceEvent.wallNegX, BounceEvent.brickNegY]
      ((3 : ℝ), (4 : ℝ))) = 5 ^ 2 :=
  ⟨by norm_num, by norm_num [mag2],
   ball_speed_invariant 5 ((3 : ℝ), (4 : ℝ)) _ (by norm_num) (by norm_num [mag2])⟩

/-- C6: for a launched ball of `sprites/ball.py` that does not touch the top wall
this frame, left or right wall contact after integration clamps the ball to that
boundary and negates exactly the horizontal velocity component; in particular with
velocity `(300, -400)` and left-wall contact the result is velocity `(-300, -400)`
with the left edge at `x = 0`. -/
theorem wall_bounce_clamps_and_negates (W : ℤ) (pr : Rect) (dt : ℚ) (b : Sprites.Ball)
    (hl : b.launched = true)
    (hy : 0 < pyIntQ ((b.rect.y : ℚ) + b.vel.2 * dt)) :
    (pyIntQ ((b.rect.x : ℚ) + b.vel.1 * dt) ≤ 0 →
      (Sprites.Ball.update W pr dt b).rect.left = 0 ∧
      (Sprites.Ball.update W pr dt b).vel = (-b.vel.1, b.vel.2)) ∧
    (0 < pyIntQ ((b.rect.x : ℚ) + b.vel.1 * dt) →
      W ≤ pyIntQ ((b.rect.x : ℚ) + b.vel.1 * dt) + b.rect.w →
      (Sprites.Ball.update W pr dt b).rect.right = W ∧
      (Sprites.Ball.update W pr dt b).vel = (-b.vel.1, b.vel.2)) ∧
    (b.vel = (300, -400) → pyIntQ ((b.rect.x : ℚ) + b.vel.1 * dt) ≤ 0 →
      (Sprites.Ball.update W pr dt b).vel = (-300, -400) ∧
      (Sprites.Ball.update W pr dt b).rect.left = 0) := by
  simp only [Sprites.Ball.update, hl, Bool.true_eq_false, if_false]
  set x1 := pyIntQ ((b.rect.x : ℚ) + b.vel.1 * dt) with hx1def
  set y1 := pyIntQ ((b.rect.y : ℚ) + b.vel.2 * dt) with hy1def
  refine ⟨?_, ?_, ?_⟩
  · intro hx
    rw [if_pos hx, if_neg (show ¬ y1 ≤ 0 by omega)]
    exact ⟨rfl, rfl⟩
  · intro h1 h2
    rw [if_neg (show ¬ x1 ≤ 0 by omega), if_pos (show x1 + b.rect.w ≥ W by omega),
      if_neg (show ¬ y1 ≤ 0 by omega)]
    refine ⟨?_, rfl⟩
    show W - b.rect.w + b.rect.w = W
    ring
  · intro hv hx
    rw [if_pos hx, if_neg (show ¬ y1 ≤ 0 by omega), hv]
    exact ⟨rfl, rfl⟩

/-- Witness for C6: a launched ball at `x = -400, y = 500` with velocity
`(300, -400)` and `dt = 1` lands at `x' = -100 ≤ 0`, `y' = 100 > 0`; the wall
handling yields velocity `(-300, -400)` and left edge `0`. -/
theorem wall_bounce_clamps_and_negates_witness :
    (Sprites.Ball.update 960 ⟨0, 0, 0, 0⟩ 1
        ⟨⟨-400, 500, 20, 20⟩, (300, -400), true⟩).vel = (-300, -400) ∧
    (Sprites.Ball.update 960 ⟨0, 0, 0, 0⟩ 1
        ⟨⟨-400, 500, 20, 20⟩, (300, -400), true⟩).rect.left = 0 :=
  (wall_bounce_clamps_and_negates 960 ⟨0, 0, 0, 0⟩ 1
      ⟨⟨-400, 500, 20, 20⟩, (300, -400), true⟩ rfl
      (by norm_num [pyIntQ, Int.floor_ofNat])).2.2 rfl
    (by norm_num [pyIntQ, Int.ceil_neg, Int.floor_ofNat])

/-- C3: for every paddle state, elapsed time, and direction input, after
`Paddle.update` the paddle rect's left edge is `≥ 0` and its right edge is `≤` the
bounds width (the window width), provided the paddle fits in the window. -/
theorem paddle_update_within_window (W : ℤ) (p : Engine.PaddleS) (dt : ℝ)
    (direction : ℤ) (hwW : p.rect.w ≤ W) :
    0 ≤ (Engine.PaddleS.update W p dt direction).rect.left ∧
    (Engine.PaddleS.update W p dt direction).rect.right ≤ W := by
  simp only [Engine.PaddleS.update, Engine.moveRect, Engine.PaddleS.syncPos,
    Rect.left, Rect.right, Rect.setLeft, Rect.setRight]
  split_ifs with h1 h2 h2 <;> simp_all

/-- Witness for C3: the shipped 120-pixel paddle inside the 960-pixel window. -/
theorem paddle_update_within_window_witness :
    0 ≤ (Engine.PaddleS.update 960
      ⟨⟨420, 700, 120, 16⟩, (0, 0), (0, 0), 420⟩ 1 1).rect.left ∧
    (Engine.PaddleS.update 960
      ⟨⟨420, 700, 120, 16⟩, (0, 0), (0, 0), 420⟩ 1 1).rect.right ≤ 960 :=
  paddle_update_within_window 960 ⟨⟨420, 700, 120, 16⟩, (0, 0), (0, 0), 420⟩ 1 1
    (by decide)

/-- C2: `_handle_brick_collisions` resolves at most one ball–brick collision —
when the live bricks split as `pre ++ b :: post` with no brick of `pre`
intersecting the ball and `b` intersecting it, the result is exactly: the ball
resolved against `b`, the bricks with `b` either strength-decremented in place or
(when `hit()` reports destroyed) removed with `b.points` added to the score, and
every other brick — in particular all of `post` — untouched and unscanned. -/
theorem brick_collision_at_most_one (ball : Engine.BallS) (pre : List Engine.BrickS)
    (b : Engine.BrickS) (post : List Engine.BrickS) (score : ℤ)
    (hpre : ∀ x ∈ pre, ¬ Rect.collide ball.rect x.rect)
    (hb : Rect.collide ball.rect b.rect) :
    Engine.handleBrickCollisions ball (pre ++ b :: post) score =
      (Engine.resolveBall ball b.rect,
       pre ++ (if b.strength - 1 ≤ 0 then post
               else { b with strength := b.strength - 1 } :: post),
       score + (if b.strength - 1 ≤ 0 then b.points else 0)) := by
  induction pre with
  | nil =>
      simp only [List.nil_append, Engine.handleBrickCollisions, if_pos hb]
      split_ifs with h
      · simp
      · simp
  | cons a rest ih =>
      have ha : ¬ Rect.collide ball.rect a.rect := hpre a (by simp)
      have hrest : ∀ x ∈ rest, ¬ Rect.collide ball.rect x.rect :=
        fun x hx => hpre x (by simp [hx])
      simp only [List.cons_append, Engine.handleBrickCollisions, if_neg ha,
        List.append_eq]
      rw [ih hrest]

/-- Witness for C2: a ball over one non-intersecting brick followed by an
intersecting brick of strength 1 and 50 points; the first brick survives
untouched, the second is removed and 50 is scored, and scanning stops. -/
theorem brick_collision_at_most_one_witness :
    Engine.handleBrickCollisions
      ⟨⟨100, 100, 20, 20⟩, (0, 0), (3, 4), 520, true⟩
      [⟨⟨500, 500, 40, 20⟩, 2, 100⟩, ⟨⟨110, 110, 40, 20⟩, 1, 50⟩] 7 =
      (Engine.resolveBall ⟨⟨100, 100, 20, 20⟩, (0, 0), (3, 4), 520, true⟩ ⟨110, 110, 40, 20⟩,
       [⟨⟨500, 500, 40, 20⟩, 2, 100⟩] ++
         (if (1 : ℤ) - 1 ≤ 0 then []
          else [⟨⟨110, 110, 40, 20⟩, (1 : ℤ) - 1, 50⟩]),
       7 + (if (1 : ℤ) - 1 ≤ 0 then 50 else 0)) :=
  brick_collision_at_most_one ⟨⟨100, 100, 20, 20⟩, (0, 0), (3, 4), 520, true⟩
    [⟨⟨500, 500, 40, 20⟩, 2, 100⟩] ⟨⟨110, 110, 40, 20⟩, 1, 50⟩ [] 7
    (by decide) (by decide)

/-- Helper: the motion phase does not touch the brick list. -/
theorem preMove_bricks (cfg : Engine.EConfig) (dt : ℝ) (d : ℤ) (s : Engine.EState) :
    (Engine.preMove cfg dt d s).bricks = s.bricks := by
  simp [Engine.preMove]

/-- Helper: the motion phase does not touch the score. -/
theorem preMove_score (cfg : Engine.EConfig) (dt : ℝ) (d : ℤ) (s : Engine.EState) :
    (Engine.preMove cfg dt d s).score = s.score := by
  simp [Engine.preMove]

/-- Helper: the motion phase does not touch the lives counter. -/
theorem preMove_lives (cfg : Engine.EConfig) (dt : ℝ) (d : ℤ) (s : Engine.EState) :
    (Engine.preMove cfg dt d s).lives = s.lives := by
  simp [Engine.preMove]

/-- Helper: the motion phase does not touch the victory flag. -/
theorem preMove_victory (cfg : Engine.EConfig) (dt : ℝ) (d : ℤ) (s : Engine.EState) :
    (Engine.preMove cfg dt d s).victory = s.victory := by
  simp [Engine.preMove]

/-- Helper: the motion phase does not touch the game state. -/
theorem preMove_gstate (cfg : Engine.EConfig) (dt : ℝ) (d : ℤ) (s : Engine.EState) :
    (Engine.preMove cfg dt d s).gstate = s.gstate := by
  simp [Engine.preMove]

/-- Helper: `_lose_life` does not touch the brick list. -/
theorem loseLife_bricks (t : Engine.EState) :
    (Engine.loseLife t).bricks = t.bricks := by
  simp only [Engine.loseLife]
  split_ifs <;> rfl

/-- Helper: `_lose_life` does not touch the score. -/
theorem loseLife_score (t : Engine.EState) :
    (Engine.loseLife t).score = t.score := by
  simp only [Engine.loseLife]
  split_ifs <;> rfl

/-- Helper: `_lose_life` does not touch the victory flag. -/
theorem loseLife_victory (t : Engine.EState) :
    (Engine.loseLife t).victory = t.victory := by
  simp only [Engine.loseLife]
  split_ifs <;> rfl

/-- Helper: on a floor-contact frame `_update_gameplay` is exactly the motion
phase followed by `_lose_life`. -/
theorem updateGameplay_floor (cfg : Engine.EConfig) (dt : ℝ) (d : ℤ)
    (s : Engine.EState)
    (hfloor : (Engine.preMove cfg dt d s).ball.rect.bottom ≥ cfg.window_height) :
    Engine.updateGameplay cfg dt d s = Engine.loseLife (Engine.preMove cfg dt d s) := by
  simp only [Engine.updateGameplay]
  rw [if_pos hfloor]

/-- Helper: evaluation of the example life-loss frame — after the motion phase
the stuck ball's bottom is at 696, below the 640-pixel floor. -/
theorem exState_floor :
    (Engine.preMove Engine.exCfg 1 0 Engine.exState).ball.rect.bottom ≥
      Engine.exCfg.window_height := by
  simp only [Engine.preMove, Engine.exCfg, Engine.exState,
    Engine.PaddleS.update, Engine.moveRect, Engine.PaddleS.syncPos,
    Engine.BallS.stickToPaddle, Engine.BallS.syncPos,
    Engine.BallS.update, Engine.wallPhase,
    Engine.BallS.bounceHorizontal, Engine.BallS.bounceVertical,
    Rect.left, Rect.right, Rect.top, Rect.bottom,
    Rect.centerx, Rect.setLeft, Rect.setRight,
    Rect.setTop, Rect.setBottom, Rect.setCenterx,
    Int.cast_zero, mul_zero, zero_mul, mul_one, add_zero, pyInt_intCast]
  norm_num [show Int.fdiv (120 : ℤ) 2 = 60 from by decide,
    show Int.fdiv (20 : ℤ) 2 = 10 from by decide]

/-- Helper: the same evaluation for the two-lives example frame. -/
theorem exState2_floor :
    (Engine.preMove Engine.exCfg 1 0 Engine.exState2).ball.rect.bottom ≥
      Engine.exCfg.window_height := by
  simp only [Engine.preMove, Engine.exCfg, Engine.exState2, Engine.exState,
    Engine.PaddleS.update, Engine.moveRect, Engine.PaddleS.syncPos,
    Engine.BallS.stickToPaddle, Engine.BallS.syncPos,
    Engine.BallS.update, Engine.wallPhase,
    Engine.BallS.bounceHorizontal, Engine.BallS.bounceVertical,
    Rect.left, Rect.right, Rect.top, Rect.bottom,
    Rect.centerx, Rect.setLeft, Rect.setRight,
    Rect.setTop, Rect.setBottom, Rect.setCenterx,
    Int.cast_zero, mul_zero, zero_mul, mul_one, add_zero, pyInt_intCast]
  norm_num [show Int.fdiv (120 : ℤ) 2 = 60 from by decide,
    show Int.fdiv (20 : ℤ) 2 = 10 from by decide]

/-- C5: on a frame where the ball crosses the floor boundary (ball bottom at or
below the window height after the motion phase), if lives is 1 the game
transitions directly to `GAME_OVER` with the victory flag still false and lives
at 0; if lives is greater than 1, lives decrements by exactly 1, the ball is
reset to the stuck state on the paddle, and play continues in the same game
state. -/
theorem floor_crossing_life_rules (cfg : Engine.EConfig) (dt : ℝ) (d : ℤ)
    (s : Engine.EState)
    (hfloor : (Engine.preMove cfg dt d s).ball.rect.bottom ≥ cfg.window_height)
    (hvic : s.victory = false) :
    (s.lives = 1 →
      (Engine.updateGameplay cfg dt d s).gstate = Engine.GState.GAME_OVER ∧
      (Engine.updateGameplay cfg dt d s).victory = false ∧
      (Engine.updateGameplay cfg dt d s).lives = 0) ∧
    (1 < s.lives →
      (Engine.updateGameplay cfg dt d s).lives = s.lives - 1 ∧
      (Engine.updateGameplay cfg dt d s).ball =
        (Engine.preMove cfg dt d s).ball.reset (Engine.preMove cfg dt d s).paddle.rect ∧
      (Engine.updateGameplay cfg dt d s).ball.launched = false ∧
      (Engine.updateGameplay cfg dt d s).gstate = s.gstate) := by
  rw [updateGameplay_floor cfg dt d s hfloor]
  have hl := preMove_lives cfg dt d s
  constructor
  · intro h1
    simp only [Engine.loseLife]
    rw [if_pos (by omega)]
    refine ⟨rfl, ?_, by simp [hl, h1]⟩
    show (Engine.preMove cfg dt d s).victory = false
    rw [preMove_victory cfg dt d s, hvic]
  · intro h2
    simp only [Engine.loseLife]
    rw [if_neg (by omega)]
    refine ⟨by simp [hl], rfl, ?_, ?_⟩
    · show ((Engine.preMove cfg dt d s).ball.reset _).launched = false
      simp [Engine.BallS.reset]
    · show (Engine.preMove cfg dt d s).gstate = s.gstate
      exact preMove_gstate cfg dt d s

/-- Witness for C5: the concrete life-loss frame with lives 1 reaches `GAME_OVER`
with victory still false and lives 0; with lives 2 it keeps playing with lives 1
and a stuck ball. -/
theorem floor_crossing_life_rules_witness :
    ((Engine.updateGameplay Engine.exCfg 1 0 Engine.exState).gstate =
        Engine.GState.GAME_OVER ∧
      (Engine.updateGameplay Engine.exCfg 1 0 Engine.exState).victory = false ∧
      (Engine.updateGameplay Engine.exCfg 1 0 Engine.exState).lives = 0) ∧
    ((Engine.updateGameplay Engine.exCfg 1 0 Engine.exState2).lives = 2 - 1 ∧
      (Engine.updateGameplay Engine.exCfg 1 0 Engine.exState2).ball.launched = false ∧
      (Engine.updateGameplay Engine.exCfg 1 0 Engine.exState2).gstate =
        Engine.exState2.gstate) :=
  ⟨(floor_crossing_life_rules Engine.exCfg 1 0 Engine.exState exState_floor rfl).1 rfl,
   by
    have h := (floor_crossing_life_rules Engine.exCfg 1 0 Engine.exState2
      exState2_floor rfl).2 (by decide)
    exact ⟨h.1, h.2.2.1, h.2.2.2⟩⟩

/-- C10: whenever the moved ball's bottom edge reaches or passes the floor
boundary, the per-frame `PLAYING` update of the richer engine returns immediately
after `_lose_life`: the paddle bounce, all brick collision resolution, and the
victory check are skipped, so the brick list, the score, and the victory flag are
exactly those of the incoming state. -/
theorem life_loss_frame_skips_rest (cfg : Engine.EConfig) (dt : ℝ) (d : ℤ)
    (s : Engine.EState)
    (hfloor : (Engine.preMove cfg dt d s).ball.rect.bottom ≥ cfg.window_height) :
    Engine.updateGameplay cfg dt d s = Engine.loseLife (Engine.preMove cfg dt d s) ∧
    (Engine.updateGameplay cfg dt d s).bricks = s.bricks ∧
    (Engine.updateGameplay cfg dt d s).score = s.score ∧
    (Engine.updateGameplay cfg dt d s).victory = s.victory := by
  have hu := updateGameplay_floor cfg dt d s hfloor
  refine ⟨hu, ?_, ?_, ?_⟩
  · rw [hu, loseLife_bricks, preMove_bricks]
  · rw [hu, loseLife_score, preMove_score]
  · rw [hu, loseLife_victory, preMove_victory]

/-- Counterexample to C7 as stated: with rows 6, cols 10, the default difficulty
strength 1, density 1 and every random draw 0, the generated layout does have 60
descriptors, but it contains a descriptor whose strength is not in `[1, 3]` (the
top row gets strength `max(1, 1 + 5) = 6`). -/
theorem generate_level_strength_exceeds_three :
    (LevelGen.generate_level_layout LevelGen.exGenCfg 1 (fun _ => 0)).length = 60 ∧
    ∃ d ∈ LevelGen.generate_level_layout LevelGen.exGenCfg 1 (fun _ => 0),
      ¬ (1 ≤ d.strength ∧ d.strength ≤ 3) := by decide

/-- C7 (amended): with rows 6, cols 10, density 1 and the default difficulty
`brick_strength` of 1, for every window geometry, color list and random stream of
unit-interval draws, the generated layout contains exactly 60 brick descriptors,
and every descriptor's strength equals `max(1, 1 + (6 - row - 1))` and hence lies
in `[1, 6]` (not `[1, 3]`). -/
theorem generate_level_layout_sixty (wc pad toff bh : ℤ) (colors : List (ℤ × ℤ × ℤ))
    (rng : ℕ → ℚ) (hrng : ∀ n, rng n < 1) :
    (LevelGen.generate_level_layout ⟨wc, pad, 10, 6, toff, bh, colors, 1⟩ 1 rng).length
        = 60 ∧
    ∀ d ∈ LevelGen.generate_level_layout ⟨wc, pad, 10, 6, toff, bh, colors, 1⟩ 1 rng,
      1 ≤ d.strength ∧ d.strength ≤ 6 := by
  have hm : max (0 : ℚ) (min 1 1) = 1 := by norm_num
  have h1 : ∀ n, ¬ ((1 : ℚ) < rng n) := fun n => not_lt.2 (hrng n).le
  have h0 : ∀ n, ¬ (max (0 : ℚ) (min 1 1) < rng n) := by
    intro n
    rw [hm]
    exact h1 n
  constructor
  · simp [LevelGen.generate_level_layout, h1, List.range_succ]
  · intro d hd
    simp only [LevelGen.generate_level_layout, List.mem_flatMap, List.mem_range,
      List.mem_filterMap] at hd
    obtain ⟨row, hrow, col, hcol, hsome⟩ := hd
    rw [if_neg (h0 _)] at hsome
    obtain rfl : _ = d := Option.some_injective _ hsome
    refine ⟨le_max_left _ _, max_le (by norm_num) ?_⟩
    have : row < 6 := by omega
    omega

/-- Witness for C7 (amended) at the all-zero random stream. -/
theorem generate_level_layout_sixty_witness :
    (LevelGen.generate_level_layout ⟨960, 8, 10, 6, 80, 22, [(243, 86, 112)], 1⟩ 1
        (fun _ => 0)).length = 60 ∧
    ∀ d ∈ LevelGen.generate_level_layout ⟨960, 8, 10, 6, 80, 22, [(243, 86, 112)], 1⟩ 1
        (fun _ => 0),
      1 ≤ d.strength ∧ d.strength ≤ 6 :=
  generate_level_layout_sixty 960 8 80 22 [(243, 86, 112)] (fun _ => 0)
    (fun n => by norm_num)

/-- C8: `load_level_layout` is all-or-nothing — if any entry of the `bricks` list
fails validation (missing required field or value not convertible to the expected
numeric type), the whole load fails with a validation error and no partial brick
list is produced; and if every entry is valid, a descriptor is produced for each
entry, in order. -/
theorem load_level_layout_all_or_nothing (entries : List LevelLoad.RawEntry) :
    ((∃ e ∈ entries, ∃ msg, LevelLoad.parseBrick e = .error msg) →
      ∃ msg, LevelLoad.load_level_layout entries = .error msg) ∧
    ((∀ e ∈ entries, ∃ d, LevelLoad.parseBrick e = .ok d) →
      ∃ ds, LevelLoad.load_level_layout entries = .ok ds ∧
        ds.length = entries.length ∧
        ∀ (i : ℕ) (h1 : i < entries.length) (h2 : i < ds.length),
          LevelLoad.parseBrick (entries.get ⟨i, h1⟩) = .ok (ds.get ⟨i, h2⟩)) := by
  induction entries with
  | nil =>
      refine ⟨?_, ?_⟩
      · rintro ⟨e, he, _⟩
        exact absurd he (List.not_mem_nil e)
      · intro _
        exact ⟨[], rfl, rfl, fun i h1 h2 => absurd h1 (by simp)⟩
  | cons e rest ih =>
      refine ⟨?_, ?_⟩
      · rintro ⟨a, ha, msg, hmsg⟩
        rcases List.mem_cons.1 ha with rfl | ha'
        · exact ⟨msg, by simp [LevelLoad.load_level_layout, hmsg]⟩
        · cases hpe : LevelLoad.parseBrick e with
          | error m => exact ⟨m, by simp [LevelLoad.load_level_layout, hpe]⟩
          | ok d =>
              obtain ⟨m2, hm2⟩ := ih.1 ⟨a, ha', msg, hmsg⟩
              exact ⟨m2, by simp [LevelLoad.load_level_layout, hpe, hm2]⟩
      · intro hall
        obtain ⟨d, hd⟩ := hall e (List.mem_cons_self e rest)
        obtain ⟨ds, hds, hlen, hidx⟩ :=
          ih.2 (fun x hx => hall x (List.mem_cons_of_mem _ hx))
        refine ⟨d :: ds, by simp [LevelLoad.load_level_layout, hd, hds],
          by simp [hlen], ?_⟩
        intro i h1 h2
        cases i with
        | zero => simpa using hd
        | succ j => simpa using hidx j (by simpa using h1) (by simpa using h2)

/-- Witness for C8: a list containing an invalid entry loads to an error, and the
singleton list of the valid entry loads to exactly its descriptor. -/
theorem load_level_layout_all_or_nothing_witness :
    (∃ msg, LevelLoad.load_level_layout [LevelLoad.exGood, LevelLoad.exBad] =
      .error msg) ∧
    (∃ ds, LevelLoad.load_level_layout [LevelLoad.exGood] = .ok ds ∧
      ds.length = [LevelLoad.exGood].length ∧
      ∀ (i : ℕ) (h1 : i < [LevelLoad.exGood].length) (h2 : i < ds.length),
        LevelLoad.parseBrick ([LevelLoad.exGood].get ⟨i, h1⟩) = .ok (ds.get ⟨i, h2⟩)) :=
  ⟨(load_level_layout_all_or_nothing [LevelLoad.exGood, LevelLoad.exBad]).1
    ⟨LevelLoad.exBad, by decide, "Invalid brick entry", rfl⟩,
   (load_level_layout_all_or_nothing [LevelLoad.exGood]).2
    (fun e he => by
      rw [List.mem_singleton] at he
      subst he
      exact ⟨⟨8, 80, 87, 22, 2, [255, 255, 255]⟩, rfl⟩)⟩

/-- Witness for C10: on the concrete life-loss frame the update equals the motion
phase followed by `_lose_life`, and the brick list, score, and victory flag are
unchanged. -/
theorem life_loss_frame_skips_rest_witness :
    Engine.updateGameplay Engine.exCfg 1 0 Engine.exState =
      Engine.loseLife (Engine.preMove Engine.exCfg 1 0 Engine.exState) ∧
    (Engine.updateGameplay Engine.exCfg 1 0 Engine.exState).bricks =
      Engine.exState.bricks ∧
    (Engine.updateGameplay Engine.exCfg 1 0 Engine.exState).score =
      Engine.exState.score ∧
    (Engine.updateGameplay Engine.exCfg 1 0 Engine.exState).victory =
      Engine.exState.victory :=
  life_loss_frame_skips_rest Engine.exCfg 1 0 Engine.exState exState_floor

end Arcanoid
